import Mathlib

/-!
Shallow embedding of the RFB client handshake / framing engine from
src/xpra/client/rfb_protocol.py, together with a spec-modelled cipher
backend (the crypto backend itself is exercised only by
src/tests/unittests/unit/net/crypto_test.py and its source is not part
of the repository snapshot).

Byte buffers are lists of naturals (one entry per byte).  Each Python
state handler `self._parse_X(packet)` is embedded as a pure function
`parse_X : List Nat → Option HandlerResult`:
  - the outer `Option.none` models a raised Python exception
    (struct.error from `struct.unpack` on a buffer of the wrong size);
  - `HandlerResult.ret` is the Python return value, where `Option.none`
    models a bare `return` (Python `None`) and `some k` models `return k`;
  - `sends` collects the byte strings passed to `self.send` in order;
  - `aborts` counts calls to the abort collaborators
    (`self._internal_error` / `self.invalid`);
  - `next` is the value of `self._packet_parser` after the call
    (equal to the handler's own state when no transition happened);
  - `session_name` records the server-name bytes decoded by the
    client-init handler (`None` elsewhere).
-/

/-- The four parser states of the handshake machine, in session order. -/
inductive ParseState
  | AwaitingSecurityHandshake
  | AwaitingSecurityResult
  | AwaitingClientInit
  | SteadyStateUpdates
  deriving DecidableEq

/-- Observable outcome of one handler invocation: Python return value,
sends, abort count, resulting parser state, and decoded session name. -/
structure HandlerResult where
  ret : Option Nat
  sends : List (List Nat)
  aborts : Nat
  next : ParseState
  session_name : Option (List Nat) := none
  deriving DecidableEq

/-- Modelled from the spec: the numeric code of the "no authentication"
security type (`RFBAuth.NONE` from rfb_const, which is not in the source
snapshot).  Section 6 fixes the selector byte as "always 0/no-auth". -/
def RFBAuth.NONE : Nat := 0

/-- Modelled from the spec: the raw-encoding code (`RFBEncoding.RAW` from
rfb_const, not in the snapshot).  Section 8 writes "encoding=raw(0)". -/
def RFBEncoding.RAW : Int := 0

/-- Modelled from the spec: the set-encodings message-type byte
(`RFBClientMessage.SetEncodings` from rfb_const, not in the snapshot).
The spec fixes only the message layout, not this byte's value. -/
def RFBClientMessage.SetEncodings : Nat := 2

/-- Little-endian 32-bit decode of (up to) the first four bytes, the
semantics of native-order `struct.unpack(b"I", packet[:4])`.  Only
zero-versus-nonzero is ever inspected, which is byte-order independent. -/
def u32le (p : List Nat) : Nat :=
  p.getD 0 0 + p.getD 1 0 * 256 + p.getD 2 0 * 65536 + p.getD 3 0 * 16777216

/-- Big-endian 16-bit decode of two bytes (struct format `!H`). -/
def be16dec (a b : Nat) : Nat := a * 256 + b

/-- Big-endian 32-bit decode of four bytes (struct format `!I`). -/
def be32dec (a b c d : Nat) : Nat := ((a * 256 + b) * 256 + c) * 256 + d

/-- Signed big-endian 32-bit decode of four bytes (struct format `!i`),
two's complement. -/
def i32dec (a b c d : Nat) : Int :=
  if be32dec a b c d < 2147483648 then (be32dec a b c d : Int)
  else (be32dec a b c d : Int) - 4294967296

/-- Big-endian 16-bit encode (struct format `!H`). -/
def be16enc (v : Nat) : List Nat := [v / 256 % 256, v % 256]

/-- Big-endian 32-bit encode (struct format `!I`). -/
def be32enc (v : Nat) : List Nat :=
  [v / 16777216 % 256, v / 65536 % 256, v / 256 % 256, v % 256]

/-- Signed big-endian 32-bit encode (struct format `!i`), two's
complement. -/
def i32enc (v : Int) : List Nat := be32enc (v % 4294967296).toNat

/-- Embedding of `RFBClientProtocol._parse_security_handshake`.
The Python reads one count byte `n` (`struct.unpack(b"B", packet[:1])`,
raising on an empty buffer), aborts on `n == 0`, then unpacks the whole
remainder as exactly `n` type bytes (`struct.unpack(b"B"*n, packet[1:])`,
raising unless `len(packet) - 1 == n`).  Unknown codes survive the
`RFBAuth(v)` conversion as plain integers, and since an `IntEnum` member
compares equal to its integer value, the `st[0] != RFBAuth.NONE` test
depends only on the first advertised integer code.  On success it sets
the parser to the security-result handler, sends the single selector
byte `struct.pack(b"B", 0)` and returns `1 + n`. -/
def parse_security_handshake : List Nat → Option HandlerResult
  | [] => none
  | n :: rest =>
    if n = 0 then
      some { ret := some 0, sends := [], aborts := 1,
             next := .AwaitingSecurityHandshake }
    else if rest.length ≠ n then
      none
    else
      match rest with
      | [] =>
        some { ret := some (1 + n), sends := [[0]], aborts := 0,
               next := .AwaitingSecurityResult }
      | t :: _ =>
        if t ≠ RFBAuth.NONE then
          some { ret := some 0, sends := [], aborts := 1,
                 next := .AwaitingSecurityHandshake }
        else
          some { ret := some (1 + n), sends := [[0]], aborts := 0,
                 next := .AwaitingSecurityResult }

/-- Embedding of `RFBClientProtocol._parse_security_result`: fewer than
four bytes returns 0; a nonzero 32-bit status aborts; a zero status sends
the one-byte share flag `struct.pack(b"B", bool(False))`, moves to the
client-init handler and returns 4. -/
def parse_security_result (packet : List Nat) : Option HandlerResult :=
  if packet.length < 4 then
    some { ret := some 0, sends := [], aborts := 0,
           next := .AwaitingSecurityResult }
  else if u32le (packet.take 4) ≠ 0 then
    some { ret := some 0, sends := [], aborts := 1,
           next := .AwaitingSecurityResult }
  else
    some { ret := some 4, sends := [[0]], aborts := 0,
           next := .AwaitingClientInit }

/-- Modelled from the spec: `struct.calcsize(CLIENT_INIT)` for the
client-init fixed header (the `CLIENT_INIT` format string lives in
rfb_const, not in the snapshot).  Per the spec it is the fixed
framebuffer width/height/pixel-format header whose last field is the
server-name length; the protocol layout makes it 2+2+16+4 = 24 bytes. -/
def ci_size : Nat := 24

/-- Modelled from the spec: the last field of the client-init fixed
header, a 32-bit big-endian server-name length occupying its final four
bytes (offsets 20..23). -/
def client_init_name_size (packet : List Nat) : Nat :=
  be32dec (packet.getD 20 0) (packet.getD 21 0)
    (packet.getD 22 0) (packet.getD 23 0)

/-- Embedding of `RFBClientProtocol.send_set_encodings`: the packet
`struct.pack("!BBHi", RFBClientMessage.SetEncodings, 0, 1, RFBEncoding.RAW)`. -/
def set_encodings_packet : List Nat :=
  [RFBClientMessage.SetEncodings, 0] ++ be16enc 1 ++ i32enc RFBEncoding.RAW

/-- Embedding of `RFBClientProtocol._parse_client_init`: waits (returns
0) until the fixed header is buffered, reads the name length from the
header's last field, waits again until header plus name are buffered,
then decodes the name, sends the set-encodings message, moves to the
steady-state handler and returns `ci_size + name_size`. -/
def parse_client_init (packet : List Nat) : Option HandlerResult :=
  if packet.length < ci_size then
    some { ret := some 0, sends := [], aborts := 0,
           next := .AwaitingClientInit }
  else if packet.length < ci_size + client_init_name_size packet then
    some { ret := some 0, sends := [], aborts := 0,
           next := .AwaitingClientInit }
  else
    some { ret := some (ci_size + client_init_name_size packet),
           sends := [set_encodings_packet], aborts := 0,
           next := .SteadyStateUpdates,
           session_name :=
             some ((packet.drop ci_size).take (client_init_name_size packet)) }

/-- The fixed rectangle-header size `struct.calcsize(b"!BBHHHHHi")` = 16. -/
def header_size : Nat := 16

/-- Rectangle width: bytes 8..9 of the header, big-endian (`!H`). -/
def rect_w (p : List Nat) : Nat := be16dec (p.getD 8 0) (p.getD 9 0)

/-- Rectangle height: bytes 10..11 of the header, big-endian (`!H`). -/
def rect_h (p : List Nat) : Nat := be16dec (p.getD 10 0) (p.getD 11 0)

/-- Rectangle encoding code: bytes 12..15 of the header, signed
big-endian (`!i`). -/
def rect_encoding (p : List Nat) : Int :=
  i32dec (p.getD 12 0) (p.getD 13 0) (p.getD 14 0) (p.getD 15 0)

/-- Embedding of `RFBClientProtocol._parse_rfb_packet`: a buffer of at
most `header_size` bytes returns 0 before anything is inspected; a
four-byte marker other than `struct.pack(b"!BBH", 0, 0, 1)` is an
`invalid` abort returning 0; a non-raw encoding is an `invalid` abort
returning Python `None` (`ret := none`); otherwise the handler waits for
`header_size + w*h*4` bytes, with no bound on `w*h*4`, and consumes that
many once available. -/
def parse_rfb_packet (packet : List Nat) : Option HandlerResult :=
  if packet.length ≤ header_size then
    some { ret := some 0, sends := [], aborts := 0,
           next := .SteadyStateUpdates }
  else if packet.take 4 ≠ [0, 0, 0, 1] then
    some { ret := some 0, sends := [], aborts := 1,
           next := .SteadyStateUpdates }
  else if rect_encoding packet ≠ RFBEncoding.RAW then
    some { ret := none, sends := [], aborts := 1,
           next := .SteadyStateUpdates }
  else if packet.length < header_size + rect_w packet * rect_h packet * 4 then
    some { ret := some 0, sends := [], aborts := 0,
           next := .SteadyStateUpdates }
  else
    some { ret := some (header_size + rect_w packet * rect_h packet * 4),
           sends := [], aborts := 0, next := .SteadyStateUpdates }

/-- Modelled from the spec: the cipher backend (`xpra.net.crypto` and the
pycryptography backend, exercised by crypto_test.py but absent from the
snapshot).  Section 4.4 describes encryptor/decryptor objects bound to
one derived key and IV, each wrapping a stream cipher whose running
state (counter/feedback position) is preserved across calls.  The model
is a keystream cipher: a context is a key, an IV and the current stream
position. -/
structure CipherCtx where
  key : List Nat
  iv : List Nat
  pos : Nat
  deriving DecidableEq

/-- A keystream family: byte `i` of the stream for a given key and IV.
The spec fixes no concrete cipher, so the model is parametric in `ks`. -/
def Keystream : Type := List Nat → List Nat → Nat → Nat

/-- XOR a byte list against the keystream starting at position `p`,
the body of one `encrypt`/`decrypt` call. -/
def xorStream (ks : Nat → Nat) : Nat → List Nat → List Nat
  | _, [] => []
  | p, b :: bs => (b ^^^ ks p) :: xorStream ks (p + 1) bs

/-- Modelled from the spec: `get_encryptor(secret, iv)` returns a fresh
stateful encryptor at stream position 0. -/
def get_encryptor (key iv : List Nat) : CipherCtx := ⟨key, iv, 0⟩

/-- Modelled from the spec: `get_decryptor(secret, iv)` returns a fresh
stateful decryptor at stream position 0. -/
def get_decryptor (key iv : List Nat) : CipherCtx := ⟨key, iv, 0⟩

/-- Modelled from the spec: one `encrypt` call XORs the plaintext with
the keystream at the current position and advances the position by the
message length (state carried across calls). -/
def CipherCtx.encrypt (ks : Keystream) (c : CipherCtx) (m : List Nat) :
    List Nat × CipherCtx :=
  (xorStream (ks c.key c.iv) c.pos m, ⟨c.key, c.iv, c.pos + m.length⟩)

/-- Modelled from the spec: one `decrypt` call, the inverse operation,
likewise stateful. -/
def CipherCtx.decrypt (ks : Keystream) (c : CipherCtx) (m : List Nat) :
    List Nat × CipherCtx :=
  (xorStream (ks c.key c.iv) c.pos m, ⟨c.key, c.iv, c.pos + m.length⟩)

/-- Run a sequence of `encrypt` calls on one context, collecting the
outputs and threading the cipher state. -/
def runEncrypt (ks : Keystream) (c : CipherCtx) :
    List (List Nat) → List (List Nat) × CipherCtx
  | [] => ([], c)
  | m :: ms =>
    let r := CipherCtx.encrypt ks c m
    let rs := runEncrypt ks r.2 ms
    (r.1 :: rs.1, rs.2)

/-- Run a sequence of `decrypt` calls on one context, collecting the
outputs and threading the cipher state. -/
def runDecrypt (ks : Keystream) (c : CipherCtx) :
    List (List Nat) → List (List Nat) × CipherCtx
  | [] => ([], c)
  | m :: ms =>
    let r := CipherCtx.decrypt ks c m
    let rs := runDecrypt ks r.2 ms
    (r.1 :: rs.1, rs.2)

/-- A concrete keystream used to instantiate the parametric round-trip
theorem on concrete data. -/
def wks : Keystream := fun _ _ i => i % 256

/-- XORing against the same keystream segment twice is the identity. -/
theorem xorStream_xorStream (ks : Nat → Nat) (p : Nat) (m : List Nat) :
    xorStream ks p (xorStream ks p m) = m := by
  induction m generalizing p with
  | nil => rfl
  | cons b bs ih => simp [xorStream, ih, Nat.xor_cancel_right]

/-- The length of one call's output equals the input length. -/
theorem xorStream_length (ks : Nat → Nat) (p : Nat) (m : List Nat) :
    (xorStream ks p m).length = m.length := by
  induction m generalizing p with
  | nil => rfl
  | cons b bs ih => simp [xorStream, ih]

/-- Splitting a message across two positions splits the stream. -/
theorem xorStream_append (ks : Nat → Nat) (p : Nat) (a b : List Nat) :
    xorStream ks p (a ++ b) = xorStream ks p a ++ xorStream ks (p + a.length) b := by
  induction a generalizing p with
  | nil => simp [xorStream]
  | cons x xs ih =>
    simp only [List.cons_append, xorStream, List.length_cons, List.cons.injEq,
      true_and]
    rw [List.append_eq, ih]
    have h : p + 1 + xs.length = p + (xs.length + 1) := by omega
    rw [h]

/-- The concatenation of the outputs of a run of `encrypt` calls is the
single-shot stream encryption of the concatenated inputs. -/
theorem runEncrypt_flatten (ks : Keystream) (key iv : List Nat) (p : Nat)
    (ms : List (List Nat)) :
    (runEncrypt ks ⟨key, iv, p⟩ ms).1.flatten = xorStream (ks key iv) p ms.flatten := by
  induction ms generalizing p with
  | nil => rfl
  | cons m ms ih =>
    simp only [runEncrypt, CipherCtx.encrypt, List.flatten_cons, ih,
      xorStream_append]

/-- The concatenation of the outputs of a run of `decrypt` calls is the
single-shot stream decryption of the concatenated inputs. -/
theorem runDecrypt_flatten (ks : Keystream) (key iv : List Nat) (p : Nat)
    (ms : List (List Nat)) :
    (runDecrypt ks ⟨key, iv, p⟩ ms).1.flatten = xorStream (ks key iv) p ms.flatten := by
  induction ms generalizing p with
  | nil => rfl
  | cons m ms ih =>
    simp only [runDecrypt, CipherCtx.decrypt, List.flatten_cons, ih,
      xorStream_append]

/-- Claim C1: refuted by the code.  At the input [2, 1] — advertised
security-type count n = 2 with only two bytes buffered, fewer than 1+n —
the security-handshake handler raises struct.error from
`struct.unpack(b"B"*n, packet[1:])` (modelled as `none`) instead of
returning 0 with no side effect, so a short buffer cannot be re-fed. -/
theorem secHandshake_short_buffer_raises :
    parse_security_handshake [2, 1] = none := rfl

/-- Claim C2: refuted by the code.  At the input [1, 0, 9] — count n = 1,
first advertised type no-auth, and one extra buffered byte beyond 1+n —
the security-handshake handler raises struct.error (modelled as `none`)
instead of consuming 1+n bytes and leaving the remainder to the next
state; with exactly 1+n bytes the same input succeeds. -/
theorem secHandshake_extra_bytes_raise :
    parse_security_handshake [1, 0, 9] = none
    ∧ parse_security_handshake [1, 0] =
      some { ret := some 2, sends := [[0]], aborts := 0,
             next := .AwaitingSecurityResult } :=
  ⟨rfl, rfl⟩

/-- Claim C3: refuted by the code.  The steady-state parser applies no
bound and no check to `w*h*4` before using it as a buffering threshold:
on a complete rectangle header advertising width = height = 65535 with
raw encoding, it returns 0 and waits for
`header_size + 65535*65535*4 = 17179344916` bytes. -/
theorem rfbPacket_no_payload_bound :
    parse_rfb_packet
      [0, 0, 0, 1, 0, 0, 0, 0, 255, 255, 255, 255, 0, 0, 0, 0, 7] =
      some { ret := some 0, sends := [], aborts := 0,
             next := .SteadyStateUpdates }
    ∧ header_size +
        rect_w [0, 0, 0, 1, 0, 0, 0, 0, 255, 255, 255, 255, 0, 0, 0, 0, 7] *
        rect_h [0, 0, 0, 1, 0, 0, 0, 0, 255, 255, 255, 255, 0, 0, 0, 0, 7] * 4 =
      17179344916 := by
  constructor
  · rfl
  · rfl

/-- Claim C4: in the AwaitingSecurityResult state, fewer than four
buffered bytes returns 0 with no side effect; a nonzero 32-bit status
aborts exactly once with no send; a zero status sends exactly one 1-byte
share=false message, moves to AwaitingClientInit and returns 4. -/
theorem secResult_cases (p : List Nat) :
    (p.length < 4 → parse_security_result p =
      some { ret := some 0, sends := [], aborts := 0,
             next := .AwaitingSecurityResult })
    ∧ (4 ≤ p.length → u32le (p.take 4) ≠ 0 → parse_security_result p =
      some { ret := some 0, sends := [], aborts := 1,
             next := .AwaitingSecurityResult })
    ∧ (4 ≤ p.length → u32le (p.take 4) = 0 → parse_security_result p =
      some { ret := some 4, sends := [[0]], aborts := 0,
             next := .AwaitingClientInit }) := by
  refine ⟨fun h => ?_, fun h4 hne => ?_, fun h4 heq => ?_⟩
  · unfold parse_security_result
    rw [if_pos h]
  · unfold parse_security_result
    rw [if_neg (by omega), if_pos hne]
  · unfold parse_security_result
    rw [if_neg (by omega), if_neg (not_not_intro heq)]

/-- Witness for C4 at three concrete inputs: a 1-byte buffer waits, the
nonzero status 1 aborts, and the zero status (with an extra trailing
byte) sends the share flag and consumes 4. -/
theorem secResult_cases_witness :
    parse_security_result [0] =
      some { ret := some 0, sends := [], aborts := 0,
             next := .AwaitingSecurityResult }
    ∧ parse_security_result [1, 0, 0, 0] =
      some { ret := some 0, sends := [], aborts := 1,
             next := .AwaitingSecurityResult }
    ∧ parse_security_result [0, 0, 0, 0, 5] =
      some { ret := some 4, sends := [[0]], aborts := 0,
             next := .AwaitingClientInit } :=
  ⟨(secResult_cases [0]).1 (by decide),
   (secResult_cases [1, 0, 0, 0]).2.1 (by decide) (by decide),
   (secResult_cases [0, 0, 0, 0, 5]).2.2 (by decide) (by decide)⟩

/-- Claim C5: on a complete advertised list (count byte n ≥ 1 followed by
exactly n type bytes) the handler's outcome depends only on whether the
first advertised type is no-auth: if so it succeeds (one send, no abort),
otherwise it aborts exactly once with no send.  The remaining codes are
arbitrary integers and never cause rejection by themselves. -/
theorem secHandshake_first_type_decides (n : Nat) (rest : List Nat)
    (h1 : 1 ≤ n) (h2 : rest.length = n) :
    parse_security_handshake (n :: rest) =
      some (if rest.headD 0 = RFBAuth.NONE then
              { ret := some (1 + n), sends := [[0]], aborts := 0,
                next := .AwaitingSecurityResult }
            else
              { ret := some 0, sends := [], aborts := 1,
                next := .AwaitingSecurityHandshake }) := by
  match rest with
  | [] =>
    simp only [List.length_nil] at h2
    omega
  | t :: ts =>
    simp only [parse_security_handshake]
    rw [if_neg (by omega), if_neg (not_not_intro h2)]
    by_cases ht : t = RFBAuth.NONE
    · rw [if_neg (not_not_intro ht)]
      simp [ht]
    · rw [if_pos ht]
      simp [ht]

/-- Witness for C5: the list [2, 0, 99] advertises no-auth first and the
unknown code 99 second; the handler succeeds, consuming three bytes. -/
theorem secHandshake_first_type_decides_witness :
    parse_security_handshake [2, 0, 99] =
      some { ret := some 3, sends := [[0]], aborts := 0,
             next := .AwaitingSecurityResult } := by
  have h := secHandshake_first_type_decides 2 [0, 99] (by decide) (by decide)
  simpa using h

/-- Claim C6: the client-init handler returns 0 (no send, no abort, no
state change) until both the fixed header and the name bytes, whose
length is the header's last field, are buffered; once they are, it
records the decoded name bytes, sends the set-encodings message — the
message-type byte, one padding byte, the 16-bit big-endian count 1 and
the 32-bit big-endian raw code — moves to SteadyStateUpdates and returns
`ci_size + name_size`. -/
theorem clientInit_waits_and_consumes (p : List Nat) :
    (p.length < ci_size → parse_client_init p =
      some { ret := some 0, sends := [], aborts := 0,
             next := .AwaitingClientInit })
    ∧ (ci_size ≤ p.length → p.length < ci_size + client_init_name_size p →
      parse_client_init p =
      some { ret := some 0, sends := [], aborts := 0,
             next := .AwaitingClientInit })
    ∧ (ci_size + client_init_name_size p ≤ p.length →
      parse_client_init p =
      some { ret := some (ci_size + client_init_name_size p),
             sends := [[RFBClientMessage.SetEncodings, 0] ++ be16enc 1 ++
               i32enc RFBEncoding.RAW],
             aborts := 0, next := .SteadyStateUpdates,
             session_name :=
               some ((p.drop ci_size).take (client_init_name_size p)) }) := by
  refine ⟨fun h => ?_, fun hge hlt => ?_, fun hok => ?_⟩
  · unfold parse_client_init
    rw [if_pos h]
  · unfold parse_client_init
    rw [if_neg (Nat.not_lt.mpr hge), if_pos hlt]
  · unfold parse_client_init
    rw [if_neg (Nat.not_lt.mpr (Nat.le_trans (Nat.le_add_right _ _) hok)),
      if_neg (Nat.not_lt.mpr hok)]
    rfl

/-- Witness for C6 at three concrete inputs: a 23-byte buffer waits, a
25-byte buffer whose header announces a 2-byte name waits, and the full
26-byte buffer consumes 26 bytes, records the name [65, 66] and sends
the 8-byte set-encodings message. -/
theorem clientInit_waits_and_consumes_witness :
    parse_client_init (List.replicate 23 0) =
      some { ret := some 0, sends := [], aborts := 0,
             next := .AwaitingClientInit }
    ∧ parse_client_init (List.replicate 20 0 ++ [0, 0, 0, 2] ++ [65]) =
      some { ret := some 0, sends := [], aborts := 0,
             next := .AwaitingClientInit }
    ∧ parse_client_init (List.replicate 20 0 ++ [0, 0, 0, 2] ++ [65, 66]) =
      some { ret := some 26, sends := [[2, 0, 0, 1, 0, 0, 0, 0]], aborts := 0,
             next := .SteadyStateUpdates, session_name := some [65, 66] } :=
  ⟨(clientInit_waits_and_consumes (List.replicate 23 0)).1 (by decide),
   ((clientInit_waits_and_consumes
     (List.replicate 20 0 ++ [0, 0, 0, 2] ++ [65])).2.1 (by decide) (by decide)),
   (((clientInit_waits_and_consumes
     (List.replicate 20 0 ++ [0, 0, 0, 2] ++ [65, 66])).2.2 (by decide)).trans
       (by decide))⟩

/-- Claim C7: in the steady-state parser a complete header whose
encoding code is not raw triggers exactly one invalid/abort call, sends
nothing, changes no state and returns Python `None` (modelled
`ret := none`), while the incomplete-buffer, bad-marker and
payload-pending branches return 0. -/
theorem rfbPacket_encoding_fatal (p : List Nat) :
    (p.length ≤ header_size → parse_rfb_packet p =
      some { ret := some 0, sends := [], aborts := 0,
             next := .SteadyStateUpdates })
    ∧ (header_size < p.length → p.take 4 ≠ [0, 0, 0, 1] →
      parse_rfb_packet p =
      some { ret := some 0, sends := [], aborts := 1,
             next := .SteadyStateUpdates })
    ∧ (header_size < p.length → p.take 4 = [0, 0, 0, 1] →
      rect_encoding p ≠ RFBEncoding.RAW → parse_rfb_packet p =
      some { ret := none, sends := [], aborts := 1,
             next := .SteadyStateUpdates })
    ∧ (header_size < p.length → p.take 4 = [0, 0, 0, 1] →
      rect_encoding p = RFBEncoding.RAW →
      p.length < header_size + rect_w p * rect_h p * 4 →
      parse_rfb_packet p =
      some { ret := some 0, sends := [], aborts := 0,
             next := .SteadyStateUpdates }) := by
  refine ⟨fun h => ?_, fun hlen hm => ?_, fun hlen hm he => ?_,
    fun hlen hm he hw => ?_⟩
  · unfold parse_rfb_packet
    rw [if_pos h]
  · unfold parse_rfb_packet
    rw [if_neg (Nat.not_le.mpr hlen), if_pos hm]
  · unfold parse_rfb_packet
    rw [if_neg (Nat.not_le.mpr hlen), if_neg (not_not_intro hm), if_pos he]
  · unfold parse_rfb_packet
    rw [if_neg (Nat.not_le.mpr hlen), if_neg (not_not_intro hm),
      if_neg (not_not_intro he), if_pos hw]

/-- Witness for C7 at four concrete inputs: a 16-byte buffer waits, a
bad marker aborts with return 0, the non-raw encoding 2 aborts with
return `None`, and a raw 1x1 rectangle with a missing payload waits. -/
theorem rfbPacket_encoding_fatal_witness :
    parse_rfb_packet (List.replicate 16 0) =
      some { ret := some 0, sends := [], aborts := 0,
             next := .SteadyStateUpdates }
    ∧ parse_rfb_packet (List.replicate 17 0) =
      some { ret := some 0, sends := [], aborts := 1,
             next := .SteadyStateUpdates }
    ∧ parse_rfb_packet
        [0, 0, 0, 1, 0, 0, 0, 0, 0, 0, 0, 0, 0, 0, 0, 2, 9] =
      some { ret := none, sends := [], aborts := 1,
             next := .SteadyStateUpdates }
    ∧ parse_rfb_packet
        [0, 0, 0, 1, 0, 0, 0, 0, 0, 1, 0, 1, 0, 0, 0, 0, 9] =
      some { ret := some 0, sends := [], aborts := 0,
             next := .SteadyStateUpdates } :=
  ⟨(rfbPacket_encoding_fatal (List.replicate 16 0)).1 (by decide),
   ((rfbPacket_encoding_fatal (List.replicate 17 0)).2.1
     (by decide) (by decide)),
   ((rfbPacket_encoding_fatal
     [0, 0, 0, 1, 0, 0, 0, 0, 0, 0, 0, 0, 0, 0, 0, 2, 9]).2.2.1
     (by decide) (by decide) (by decide)),
   ((rfbPacket_encoding_fatal
     [0, 0, 0, 1, 0, 0, 0, 0, 0, 1, 0, 1, 0, 0, 0, 0, 9]).2.2.2
     (by decide) (by decide) (by decide) (by decide))⟩

/-- Claim C9: any buffer of exactly `header_size` bytes makes the
steady-state parser return 0 with no side effect, whatever the bytes
are (the `len(packet) <= header_size` guard runs before any header
field is read); in particular the complete message of a zero-area
rectangle, which is exactly the 16-byte header, is never consumed. -/
theorem rfbPacket_exact_header_waits (p : List Nat)
    (h : p.length = header_size) :
    parse_rfb_packet p =
      some { ret := some 0, sends := [], aborts := 0,
             next := .SteadyStateUpdates } := by
  unfold parse_rfb_packet
  rw [if_pos (Nat.le_of_eq h)]

/-- Witness for C9: the complete zero-area raw-rectangle message — the
16-byte header with marker [0, 0, 0, 1], width = height = 0 and raw
encoding — is not consumed. -/
theorem rfbPacket_exact_header_waits_witness :
    parse_rfb_packet
      [0, 0, 0, 1, 0, 0, 0, 0, 0, 0, 0, 0, 0, 0, 0, 0] =
      some { ret := some 0, sends := [], aborts := 0,
             next := .SteadyStateUpdates } :=
  rfbPacket_exact_header_waits
    [0, 0, 0, 1, 0, 0, 0, 0, 0, 0, 0, 0, 0, 0, 0, 0] (by decide)

/-- Claim C10: every fatal parse path — zero security-type count,
unsupported first security type, nonzero authentication status,
mismatched update-header marker, non-raw encoding — makes exactly one
abort call, performs no send, and leaves the parser state unchanged. -/
theorem fatal_paths_abort_without_send :
    (∀ rest : List Nat, parse_security_handshake (0 :: rest) =
      some { ret := some 0, sends := [], aborts := 1,
             next := .AwaitingSecurityHandshake })
    ∧ (∀ (t : Nat) (ts : List Nat), t ≠ RFBAuth.NONE →
      parse_security_handshake ((ts.length + 1) :: t :: ts) =
      some { ret := some 0, sends := [], aborts := 1,
             next := .AwaitingSecurityHandshake })
    ∧ (∀ p : List Nat, 4 ≤ p.length → u32le (p.take 4) ≠ 0 →
      parse_security_result p =
      some { ret := some 0, sends := [], aborts := 1,
             next := .AwaitingSecurityResult })
    ∧ (∀ p : List Nat, header_size < p.length → p.take 4 ≠ [0, 0, 0, 1] →
      parse_rfb_packet p =
      some { ret := some 0, sends := [], aborts := 1,
             next := .SteadyStateUpdates })
    ∧ (∀ p : List Nat, header_size < p.length → p.take 4 = [0, 0, 0, 1] →
      rect_encoding p ≠ RFBEncoding.RAW → parse_rfb_packet p =
      some { ret := none, sends := [], aborts := 1,
             next := .SteadyStateUpdates }) := by
  refine ⟨fun rest => ?_, fun t ts ht => ?_, fun p h4 hne => ?_,
    fun p hlen hm => ?_, fun p hlen hm he => ?_⟩
  · simp only [parse_security_handshake]
    rw [if_pos trivial]
  · simp only [parse_security_handshake]
    rw [if_neg (by omega), if_neg (not_not_intro (by simp)), if_pos ht]
  · unfold parse_security_result
    rw [if_neg (by omega), if_pos hne]
  · unfold parse_rfb_packet
    rw [if_neg (Nat.not_le.mpr hlen), if_pos hm]
  · unfold parse_rfb_packet
    rw [if_neg (Nat.not_le.mpr hlen), if_neg (not_not_intro hm), if_pos he]

/-- Witness for C10 at five concrete inputs, one per fatal path. -/
theorem fatal_paths_abort_without_send_witness :
    parse_security_handshake [0, 3] =
      some { ret := some 0, sends := [], aborts := 1,
             next := .AwaitingSecurityHandshake }
    ∧ parse_security_handshake [2, 16, 2] =
      some { ret := some 0, sends := [], aborts := 1,
             next := .AwaitingSecurityHandshake }
    ∧ parse_security_result [1, 0, 0, 0] =
      some { ret := some 0, sends := [], aborts := 1,
             next := .AwaitingSecurityResult }
    ∧ parse_rfb_packet (List.replicate 17 9) =
      some { ret := some 0, sends := [], aborts := 1,
             next := .SteadyStateUpdates }
    ∧ parse_rfb_packet
        [0, 0, 0, 1, 0, 0, 0, 0, 0, 0, 0, 0, 0, 0, 0, 2, 9] =
      some { ret := none, sends := [], aborts := 1,
             next := .SteadyStateUpdates } :=
  ⟨fatal_paths_abort_without_send.1 [3],
   fatal_paths_abort_without_send.2.1 16 [2] (by decide),
   fatal_paths_abort_without_send.2.2.1 [1, 0, 0, 0] (by decide) (by decide),
   fatal_paths_abort_without_send.2.2.2.1 (List.replicate 17 9)
     (by decide) (by decide),
   fatal_paths_abort_without_send.2.2.2.2
     [0, 0, 0, 1, 0, 0, 0, 0, 0, 0, 0, 0, 0, 0, 0, 2, 9]
     (by decide) (by decide) (by decide)⟩

/-- Claim C8: an encryptor and a decryptor built from the same derived
key and IV are inverses under streaming: for any keystream family, any
sequence of `encrypt` calls and any re-chunking of the produced
ciphertext into `decrypt` calls, the concatenated decryption outputs
equal the concatenated plaintext inputs (state carries across calls;
empty messages and the empty sequence are included). -/
theorem cipher_streaming_roundtrip (ks : Keystream) (key iv : List Nat)
    (encChunks decChunks : List (List Nat))
    (h : decChunks.flatten =
      (runEncrypt ks (get_encryptor key iv) encChunks).1.flatten) :
    (runDecrypt ks (get_decryptor key iv) decChunks).1.flatten =
      encChunks.flatten := by
  unfold get_encryptor at h
  unfold get_decryptor
  rw [runDecrypt_flatten, h, runEncrypt_flatten, xorStream_xorStream]

/-- Witness for C8: with the concrete keystream `wks`, key [5] and IV
[7], encrypting the chunks [1, 2] and [3] yields ciphertext bytes
[1, 3, 1]; decrypting them re-chunked as [1] and [3, 1] restores the
message [1, 2, 3]. -/
theorem cipher_streaming_roundtrip_witness :
    ([[1], [3, 1]] : List (List Nat)).flatten =
      (runEncrypt wks (get_encryptor [5] [7]) [[1, 2], [3]]).1.flatten
    ∧ (runDecrypt wks (get_decryptor [5] [7]) [[1], [3, 1]]).1.flatten =
      ([[1, 2], [3]] : List (List Nat)).flatten :=
  ⟨by decide,
   cipher_streaming_roundtrip wks [5] [7] [[1, 2], [3]] [[1], [3, 1]]
     (by decide)⟩
